import Mathlib

/-!
Verification development for the restaurant concierge engine:
a shallow embedding of the query-understanding, matching and dietary
compatibility code (`enhanced-concierge.ts`, `dietary-restrictions.ts`,
`restaurant-generator.ts`) with theorems about its behaviour.

JavaScript strings are modelled as Lean `String`s, JS numbers appearing in
the engine as `Nat`/`Int` (all score arithmetic is integral) and as `ℚ`
for ratings and price multipliers.  Optional JS fields are `Option`s;
`undefined`-tolerant accesses (`?.`, `|| []`) become `Option` operations.
All definitions are computable and kernel-reducible so concrete scenarios
can be settled by `decide`/`rfl`; in particular `toLowerCase`, `includes`,
`split` and `replace` are re-implemented structurally over `List Char`
with JS semantics (ASCII case folding, as used by the engine's data).
-/

namespace Concierge

/-- JS `haystack.startsWith(needle)` on char lists (helper for `includes`). -/
def listStartsWith : List Char → List Char → Bool
  | _, [] => true
  | [], _ :: _ => false
  | a :: as, b :: bs => a == b && listStartsWith as bs

/-- JS `String.prototype.includes`: `needle` occurs contiguously in the
haystack. -/
def listContainsSub : List Char → List Char → Bool
  | [], needle => needle.isEmpty
  | a :: as, needle => listStartsWith (a :: as) needle || listContainsSub as needle

/-- JS `s.includes(sub)`. -/
def jsIncludes (s sub : String) : Bool :=
  listContainsSub s.toList sub.toList

/-- JS `s.toLowerCase()` (ASCII case folding, structural so that it
kernel-reduces). -/
def jsToLower (s : String) : String :=
  ⟨s.toList.map Char.toLower⟩

/-- JS `s.replace('_', ' ')`: only the first occurrence is replaced. -/
def replaceFirstUnderscore : List Char → List Char
  | [] => []
  | c :: cs => if c == '_' then ' ' :: cs else c :: replaceFirstUnderscore cs

/-- JS `s.replace('_', ' ')` on strings. -/
def jsReplaceUnderscore (s : String) : String :=
  ⟨replaceFirstUnderscore s.toList⟩

/-- JS `s.split(' ')[0]`: the prefix of `s` up to the first space. -/
def firstWord (s : String) : String :=
  ⟨(s.toList.takeWhile (fun c => c != ' '))⟩

/-- A dietary accommodation entry (`DietaryOption` in `types/index.ts`). -/
structure DietaryOption where
  type : String
  available : Bool
  notes : Option String
deriving DecidableEq, Repr

/-- The catalog record fields used by the engine (`Restaurant` in
`types/index.ts`); `dietaryOptions` is a non-optional field there. -/
structure Restaurant where
  name : String
  address : String
  rating : ℚ
  priceLevel : Nat
  cuisine : List String
  dietaryOptions : List DietaryOption
deriving DecidableEq, Repr

/-- A cached catalog entry: `GeneratedRestaurantData` plus the duck-typed
extended fields `popularDishes` / `specialFeatures` that the matcher reads
through `as any` and that may be absent on a given record. -/
structure GeneratedRestaurantData where
  restaurant : Restaurant
  popularDishes : Option (List String)
  specialFeatures : Option (List String)
deriving DecidableEq, Repr

/-- The filters extracted from free text (`extractSearchFilters` result). -/
structure SearchFilters where
  cuisine : Option String
  priceLevel : Option Nat
  dietary : Option String
  amenity : Option String
deriving DecidableEq, Repr

/-- The cuisine keyword table of `extractSearchFilters`. -/
def filterCuisines : List String :=
  ["italian", "chinese", "japanese", "mexican", "indian", "thai", "french",
   "american", "mediterranean", "korean"]

/-- The dietary keyword table of `extractSearchFilters`. -/
def filterDietaryOptions : List String :=
  ["vegetarian", "vegan", "gluten-free", "halal", "kosher", "dairy-free", "nut-free"]

/-- `extractSearchFilters` from `enhanced-concierge.ts` (lines 350-398). -/
def extractSearchFilters (messageText : String) : SearchFilters :=
  let queryLower := jsToLower messageText
  let cuisine := filterCuisines.find? (fun c => jsIncludes queryLower c)
  let priceLevel : Option Nat :=
    if jsIncludes queryLower "cheap" || jsIncludes queryLower "budget" ||
        jsIncludes queryLower "affordable" then some 1
    else if jsIncludes queryLower "expensive" || jsIncludes queryLower "upscale" ||
        jsIncludes queryLower "fine dining" then some 4
    else if jsIncludes queryLower "mid-range" || jsIncludes queryLower "moderate" then some 2
    else none
  let dietary := filterDietaryOptions.find? (fun d => jsIncludes queryLower d)
  let amenity : Option String :=
    if jsIncludes queryLower "outdoor" || jsIncludes queryLower "patio" then some "outdoor_seating"
    else if jsIncludes queryLower "delivery" then some "delivery"
    else if jsIncludes queryLower "takeout" then some "takeout"
    else if jsIncludes queryLower "parking" then some "parking"
    else none
  ⟨cuisine, priceLevel, dietary, amenity⟩

/-- A ranked match: the pushed `{...data, searchScore: score}` record of
`searchRestaurants`. -/
structure SearchResult where
  data : GeneratedRestaurantData
  searchScore : Nat
deriving DecidableEq, Repr

/-- The keyword-scoring phase of `searchRestaurants` (lines 412-441):
name, cuisine, popular-dish and feature matches against the query text.
Returns the `(matches, score)` pair before filters are applied.  The cache
key compared against the query is the lowercased restaurant name, exactly
as stored by `loadRestaurantData`. -/
def keywordPass (queryLower : String) (data : GeneratedRestaurantData) : Bool × Nat :=
  let name := jsToLower data.restaurant.name
  let restaurant := data.restaurant
  let st0 : Bool × Nat := (false, 0)
  let st1 :=
    if jsIncludes name queryLower || jsIncludes queryLower name then (true, st0.2 + 10) else st0
  let st2 :=
    if restaurant.cuisine.any (fun cuisine =>
        jsIncludes queryLower cuisine || jsIncludes cuisine (firstWord queryLower)) then
      (true, st1.2 + 8)
    else st1
  let st3 :=
    if (data.popularDishes.getD []).any (fun dish => jsIncludes queryLower (jsToLower dish)) then
      (true, st2.2 + 6)
    else st2
  let st4 :=
    if (data.specialFeatures.getD []).any (fun feature =>
        jsIncludes queryLower (jsToLower feature)) then
      (true, st3.2 + 4)
    else st3
  st4

/-- `matches` after the keyword phase of `searchRestaurants`. -/
def keywordMatch (queryLower : String) (data : GeneratedRestaurantData) : Bool :=
  (keywordPass queryLower data).1

/-- The cuisine hard filter of `searchRestaurants` (lines 445-448). -/
def cuisineFilter (filters : SearchFilters) (restaurant : Restaurant) (st : Bool × Nat) :
    Bool × Nat :=
  match filters.cuisine with
  | some c => if !(restaurant.cuisine.contains (jsToLower c)) then (false, st.2) else st
  | none => st

/-- The price-level hard filter of `searchRestaurants` (lines 450-453). -/
def priceFilter (filters : SearchFilters) (restaurant : Restaurant) (st : Bool × Nat) :
    Bool × Nat :=
  match filters.priceLevel with
  | some p => if restaurant.priceLevel != p then (false, st.2) else st
  | none => st

/-- The dietary hard filter / bonus of `searchRestaurants` (lines 455-465):
exclusion when no available matching option, +5 bonus otherwise.
`restaurant.dietaryOptions` is a non-optional array, so the JS truthiness
guard on it always passes. -/
def dietaryFilter (filters : SearchFilters) (restaurant : Restaurant) (st : Bool × Nat) :
    Bool × Nat :=
  match filters.dietary with
  | some d =>
    if restaurant.dietaryOptions.any (fun opt => opt.type == d && opt.available) then
      (st.1, st.2 + 5)
    else (false, st.2)
  | none => st

/-- The amenity filter / bonus of `searchRestaurants` (lines 467-477):
skipped entirely when the record has no `specialFeatures`; otherwise
exclusion when no feature matches, +3 bonus when one does. -/
def amenityFilter (filters : SearchFilters) (data : GeneratedRestaurantData) (st : Bool × Nat) :
    Bool × Nat :=
  match filters.amenity, data.specialFeatures with
  | some a, some features =>
    if features.any (fun feature =>
        jsIncludes (jsToLower feature) (jsReplaceUnderscore a)) then
      (st.1, st.2 + 3)
    else (false, st.2)
  | _, _ => st

/-- The loop body of `searchRestaurants` for one cache entry: keyword
scoring, then (only when some keyword matched) the filter chain, then the
final `if (matches) results.push(...)`. -/
def processOne (queryLower : String) (filters : SearchFilters)
    (data : GeneratedRestaurantData) : Option SearchResult :=
  let st := keywordPass queryLower data
  let st :=
    if st.1 then
      amenityFilter filters data
        (dietaryFilter filters data.restaurant
          (priceFilter filters data.restaurant
            (cuisineFilter filters data.restaurant st)))
    else st
  if st.1 then some ⟨data, st.2⟩ else none

/-- The result list of `searchRestaurants` before sorting, in cache
(catalog insertion) order. -/
def unsortedResults (cache : List GeneratedRestaurantData) (query : String)
    (filters : SearchFilters) : List SearchResult :=
  cache.filterMap (processOne (jsToLower query) filters)

/-- The Boolean order corresponding to the JS sort comparator
`(a, b) => a.searchScore !== b.searchScore ? b.searchScore - a.searchScore
: b.restaurant.rating - a.restaurant.rating`: `a` may precede `b` iff the
comparator is ≤ 0 on `(a, b)`. -/
def resultLE (a b : SearchResult) : Bool :=
  if a.searchScore == b.searchScore then
    decide (b.data.restaurant.rating ≤ a.data.restaurant.rating)
  else decide (b.searchScore < a.searchScore)

/-- `searchRestaurants` from `enhanced-concierge.ts` (lines 400-492): the
loop over the cache followed by the stable sort on (score desc, rating
desc).  JS `Array.prototype.sort` is stable, which `List.mergeSort`
models exactly. -/
def searchRestaurants (cache : List GeneratedRestaurantData) (query : String)
    (filters : SearchFilters) : List SearchResult :=
  (unsortedResults cache query filters).mergeSort resultLE

example : extractSearchFilters "Find cheap vegetarian Italian restaurants" =
    ⟨some "italian", some 1, some "vegetarian", none⟩ := by decide

/-- The analyzer result (`DietaryAnalysis` in `dietary-restrictions.ts`).
The score is an `Int` while under construction; the final clamp confines
it to [0, 100]. -/
structure DietaryAnalysis where
  compatible : Bool
  score : Int
  warnings : List String
  recommendations : List String
  compatibleOptions : List String
  incompatibleOptions : List String
deriving DecidableEq, Repr

/-- The display-name table of `getRestrictionDisplayName`. -/
def displayNames : List (String × String) :=
  [("vegetarian", "Vegetarian"), ("vegan", "Vegan"), ("gluten-free", "Gluten-Free"),
   ("dairy-free", "Dairy-Free"), ("nut-free", "Nut-Free"), ("shellfish-free", "Shellfish-Free"),
   ("halal", "Halal"), ("kosher", "Kosher"), ("keto", "Keto/Ketogenic"), ("paleo", "Paleo"),
   ("low-carb", "Low-Carb"), ("diabetic-friendly", "Diabetic-Friendly")]

/-- `getRestrictionDisplayName`: table lookup falling back to the raw tag. -/
def getRestrictionDisplayName (restriction : String) : String :=
  (((displayNames.find? (fun e => e.1 == restriction))).map (fun e => e.2)).getD restriction

/-- The fixed critical set of `isCriticalRestriction` (lines 194-199). -/
def criticalRestrictions : List String :=
  ["vegan", "gluten-free", "nut-free", "shellfish-free", "halal", "kosher"]

/-- `isCriticalRestriction` from `dietary-restrictions.ts`. -/
def isCriticalRestriction (restriction : String) : Bool :=
  criticalRestrictions.contains restriction

/-- The JS truthiness of `restaurant.dietaryOptions.find(opt => opt.type ===
restriction)?.available`: the first entry for the tag decides. -/
def jsAvail (options : List DietaryOption) (restriction : String) : Bool :=
  match options.find? (fun opt => opt.type == restriction) with
  | some opt => opt.available
  | none => false

/-- One iteration of the per-restriction loop of
`analyzeRestaurantCompatibility` (lines 156-172). -/
def restrictionStep (restaurant : Restaurant) (analysis : DietaryAnalysis)
    (restriction : String) : DietaryAnalysis :=
  if jsAvail restaurant.dietaryOptions restriction then
    { analysis with
      compatibleOptions := analysis.compatibleOptions ++ [restriction],
      recommendations := analysis.recommendations ++
        ["‚úÖ " ++ getRestrictionDisplayName restriction ++ " options available"] }
  else
    let analysis :=
      { analysis with
        incompatibleOptions := analysis.incompatibleOptions ++ [restriction],
        score := analysis.score - 30,
        warnings := analysis.warnings ++
          ["‚ö†Ô∏è Limited " ++ getRestrictionDisplayName restriction ++
            " options may be available"] }
    if isCriticalRestriction restriction then
      { analysis with compatible := false, score := analysis.score - 20 }
    else analysis

/-- The subsumption table of `checkConflictingRestrictions`. -/
def conflictsTable : List (String × List String) :=
  [("vegan", ["vegetarian"]), ("keto", ["low-carb"]), ("paleo", ["gluten-free"])]

/-- One iteration of `checkConflictingRestrictions` (lines 211-220). -/
def conflictStep (restrictions : List String) (analysis : DietaryAnalysis)
    (pc : String × List String) : DietaryAnalysis :=
  if restrictions.contains pc.1 then
    if pc.2.any (fun c => restrictions.contains c) then
      { analysis with
        recommendations := analysis.recommendations ++
          ["üìù Note: " ++ pc.1 ++ " diet includes " ++
            String.intercalate ", " pc.2 ++ " restrictions"] }
    else analysis
  else analysis

/-- `checkConflictingRestrictions`: appends informational notes only. -/
def checkConflictingRestrictions (restrictions : List String)
    (analysis : DietaryAnalysis) : DietaryAnalysis :=
  conflictsTable.foldl (conflictStep restrictions) analysis

/-- The cuisine suitability table of `analyzeCuisineCompatibility`. -/
def cuisineCompatibility : List (String × List (String × Int)) :=
  [("indian", [("vegetarian", 90), ("vegan", 70), ("gluten-free", 60),
               ("dairy-free", 40), ("halal", 80)]),
   ("mediterranean", [("vegetarian", 85), ("vegan", 65), ("gluten-free", 70),
                      ("dairy-free", 60), ("halal", 70)]),
   ("japanese", [("vegetarian", 60), ("vegan", 50), ("gluten-free", 40),
                 ("dairy-free", 80), ("shellfish-free", 30)]),
   ("italian", [("vegetarian", 75), ("vegan", 55), ("gluten-free", 40),
                ("dairy-free", 35)]),
   ("mexican", [("vegetarian", 70), ("vegan", 60), ("gluten-free", 50),
                ("dairy-free", 45), ("halal", 60)]),
   ("chinese", [("vegetarian", 80), ("vegan", 70), ("gluten-free", 45),
                ("dairy-free", 75), ("halal", 50)])]

/-- The inner per-restriction iteration of `analyzeCuisineCompatibility`
(lines 275-286): suitability ≥80 and 60-79 emit recommendations, <40 a
warning, 40-59 nothing; the numeric score is never touched. -/
def cuisineRestrictionStep (cuisine : String) (compatibility : List (String × Int))
    (analysis : DietaryAnalysis) (restriction : String) : DietaryAnalysis :=
  match compatibility.find? (fun e => e.1 == restriction) with
  | some e =>
    if e.2 ≥ 80 then
      { analysis with
        recommendations := analysis.recommendations ++
          ["üç¥ " ++ cuisine ++ " cuisine is excellent for " ++
            getRestrictionDisplayName restriction ++ " diets"] }
    else if e.2 ≥ 60 then
      { analysis with
        recommendations := analysis.recommendations ++
          ["üç¥ " ++ cuisine ++ " cuisine has good " ++
            getRestrictionDisplayName restriction ++ " options"] }
    else if e.2 < 40 then
      { analysis with
        warnings := analysis.warnings ++
          ["üç¥ " ++ cuisine ++ " cuisine may have limited " ++
            getRestrictionDisplayName restriction ++ " options"] }
    else analysis
  | none => analysis

/-- The per-cuisine iteration of `analyzeCuisineCompatibility`. -/
def cuisineCompatStep (restrictions : List String) (analysis : DietaryAnalysis)
    (cuisine : String) : DietaryAnalysis :=
  match cuisineCompatibility.find? (fun e => e.1 == jsToLower cuisine) with
  | some entry => restrictions.foldl (cuisineRestrictionStep cuisine entry.2) analysis
  | none => analysis

/-- `analyzeCuisineCompatibility` (lines 223-289). -/
def analyzeCuisineCompatibility (cuisines : List String) (restrictions : List String)
    (analysis : DietaryAnalysis) : DietaryAnalysis :=
  cuisines.foldl (cuisineCompatStep restrictions) analysis

/-- The cuisine → allergen-risk table of `checkAllergyWarnings`. -/
def cuisineAllergyRisks : List (String × List String) :=
  [("asian", ["soy", "sesame", "shellfish", "fish"]),
   ("japanese", ["fish", "shellfish", "soy"]),
   ("chinese", ["soy", "sesame", "shellfish", "nuts"]),
   ("thai", ["shellfish", "fish", "nuts"]),
   ("indian", ["nuts", "dairy"]),
   ("mediterranean", ["nuts", "fish", "sesame"]),
   ("middle_eastern", ["sesame", "nuts"]),
   ("italian", ["eggs", "dairy"])]

/-- The per-cuisine iteration of `checkAllergyWarnings` (lines 307-321):
a nonempty allergen intersection appends one warning and subtracts 10. -/
def allergyStep (allergies : List String) (analysis : DietaryAnalysis)
    (cuisine : String) : DietaryAnalysis :=
  match cuisineAllergyRisks.find? (fun e => e.1 == jsToLower cuisine) with
  | some e =>
    let matchingRisks := e.2.filter (fun risk =>
      allergies.any (fun allergy => jsIncludes (jsToLower allergy) risk))
    if matchingRisks.length > 0 then
      { analysis with
        warnings := analysis.warnings ++
          ["‚ö†Ô∏è " ++ cuisine ++ " cuisine commonly uses " ++
            String.intercalate ", " matchingRisks ++
            " - please inform restaurant of allergies"],
        score := analysis.score - 10 }
    else analysis
  | none => analysis

/-- `checkAllergyWarnings` (lines 291-322). -/
def checkAllergyWarnings (restaurant : Restaurant) (allergies : List String)
    (analysis : DietaryAnalysis) : DietaryAnalysis :=
  restaurant.cuisine.foldl (allergyStep allergies) analysis

/-- The tail of `analyzeRestaurantCompatibility` (lines 183-189): the
extensive-accommodation bonus followed by the clamp of the score into
[0, 100]. -/
def bonusAndClamp (restaurant : Restaurant) (analysis : DietaryAnalysis) : DietaryAnalysis :=
  let analysis :=
    if 5 < (restaurant.dietaryOptions.filter (fun opt => opt.available)).length then
      { analysis with
        score := analysis.score + 10,
        recommendations := analysis.recommendations ++
          ["üåü Restaurant has extensive dietary accommodation options"] }
    else analysis
  { analysis with score := max 0 (min 100 analysis.score) }

/-- `analyzeRestaurantCompatibility` from `dietary-restrictions.ts`
(lines 136-192): fast path for an empty profile, then the restriction
loop, conflict notes, cuisine-risk pass, allergy pass, accommodation
bonus, and the final clamp of the score into [0, 100]. -/
def analyzeRestaurantCompatibility (restaurant : Restaurant)
    (userRestrictions userAllergies : List String) : DietaryAnalysis :=
  let analysis : DietaryAnalysis := ⟨true, 100, [], [], [], []⟩
  if userRestrictions.length == 0 && userAllergies.length == 0 then
    { analysis with
      recommendations := analysis.recommendations ++
        ["No dietary restrictions specified - all options should be available"] }
  else
    bonusAndClamp restaurant
      (checkAllergyWarnings restaurant userAllergies
        (analyzeCuisineCompatibility restaurant.cuisine userRestrictions
          (checkConflictingRestrictions userRestrictions
            (userRestrictions.foldl (restrictionStep restaurant) analysis))))

/-- The name-analysis result of `analyzeRestaurantName` in
`restaurant-generator.ts`. -/
structure NameAnalysis where
  cuisines : List String
  restaurantType : String
  priceLevel : Nat
  expectedQuality : ℚ
  confidence : Int
deriving DecidableEq, Repr

/-- The ordered cuisine-indicator table of `analyzeRestaurantName`
(lines 246-257). -/
def cuisineIndicators : List (String × List String) :=
  [("italian", ["pizza", "pasta", "giovanni", "mario", "luigi", "bella", "roma",
                "milano", "trattoria", "osteria", "ristorante"]),
   ("chinese", ["dragon", "golden", "panda", "wok", "china", "beijing", "shanghai",
                "szechuan", "hunan"]),
   ("mexican", ["casa", "el", "la", "taco", "burrito", "cantina", "fiesta", "sol",
                "maria", "jose"]),
   ("japanese", ["sushi", "ramen", "hibachi", "sake", "tokyo", "osaka", "zen",
                 "mizu", "hana"]),
   ("indian", ["taj", "curry", "masala", "tandoor", "spice", "mumbai", "delhi",
               "punjab"]),
   ("thai", ["thai", "bangkok", "pad", "som", "tom", "green", "red", "basil"]),
   ("french", ["cafe", "bistro", "brasserie", "le", "la", "chez", "paris", "lyon"]),
   ("american", ["grill", "diner", "tavern", "pub", "kitchen", "house", "bar",
                 "steakhouse"]),
   ("mediterranean", ["olive", "mediterranean", "greco", "cyprus", "athens",
                      "santorini"]),
   ("korean", ["kim", "seoul", "korean", "bbq", "bulgogi", "kimchi"])]

/-- `analyzeRestaurantName` from `restaurant-generator.ts` (lines 237-299):
first matching cuisine in table order wins (the loop breaks), default
"american" with a −20 confidence penalty, then ordered style/price
keyword checks, and the confidence cap at 95. -/
def analyzeRestaurantName (name : String) : NameAnalysis :=
  let nameLower := jsToLower name
  let hit := cuisineIndicators.find? (fun e =>
    e.2.any (fun indicator => jsIncludes nameLower indicator))
  let cuisines : List String :=
    match hit with
    | some e => [e.1]
    | none => ["american"]
  let confidence : Int :=
    match hit with
    | some _ => 75 + 10
    | none => 75 - 20
  let (restaurantType, priceLevel, expectedQuality) :=
    if jsIncludes nameLower "fine" || jsIncludes nameLower "fine dining" ||
        jsIncludes nameLower "prime" then
      ("fine_dining", 4, (mkRat 9 2 : ℚ))
    else if jsIncludes nameLower "fast" || jsIncludes nameLower "quick" ||
        jsIncludes nameLower "express" then
      ("fast_casual", 1, (mkRat 7 2 : ℚ))
    else if jsIncludes nameLower "cafe" || jsIncludes nameLower "coffee" then
      ("cafe", 2, (4 : ℚ))
    else if jsIncludes nameLower "bar" || jsIncludes nameLower "pub" ||
        jsIncludes nameLower "tavern" then
      ("bar_restaurant", 2, (mkRat 19 5 : ℚ))
    else ("casual_dining", 2, (4 : ℚ))
  ⟨cuisines, restaurantType, priceLevel, expectedQuality, min confidence 95⟩

/-- The location-analysis result of `analyzeLocation`. -/
structure LocationAnalysis where
  priceMultiplier : ℚ
  locationStyle : String
deriving DecidableEq, Repr

/-- The urban address markers of `analyzeLocation`. -/
def urbanIndicators : List String :=
  ["downtown", "city center", "main st", "broadway", "avenue", "plaza"]

/-- The upscale address markers of `analyzeLocation`. -/
def upscaleIndicators : List String :=
  ["hills", "heights", "park", "gardens", "estates"]

/-- `analyzeLocation` from `restaurant-generator.ts` (lines 301-324):
urban markers set ×1.3, upscale markers then override with ×1.5, the
suburban baseline is ×1.0. -/
def analyzeLocation (address : String) : LocationAnalysis :=
  let addressLower := jsToLower address
  let st : ℚ × String := (1, "suburban")
  let st :=
    if urbanIndicators.any (fun indicator => jsIncludes addressLower indicator) then
      ((mkRat 13 10 : ℚ), "urban")
    else st
  let st :=
    if upscaleIndicators.any (fun indicator => jsIncludes addressLower indicator) then
      ((mkRat 3 2 : ℚ), "upscale")
    else st
  ⟨st.1, st.2⟩

/-- The base accommodation list of `generateDietaryOptions`
(lines 406-420). -/
def baseDietaryOptions : List DietaryOption :=
  [⟨"vegetarian", true, some "Multiple vegetarian options available"⟩,
   ⟨"vegan", false, none⟩,
   ⟨"gluten-free", false, none⟩,
   ⟨"dairy-free", false, none⟩,
   ⟨"nut-free", true, some "Can accommodate nut allergies with notice"⟩,
   ⟨"shellfish-free", true, some "No shellfish in most dishes"⟩,
   ⟨"halal", false, none⟩,
   ⟨"kosher", false, none⟩,
   ⟨"keto", false, none⟩,
   ⟨"paleo", false, none⟩,
   ⟨"low-carb", false, none⟩,
   ⟨"diabetic-friendly", true, some "Several lighter options available"⟩]

/-- The JS in-place mutation `options.find(opt => opt.type === t)!.available
= true; ...!.notes = n`: updates the first entry with the given type. -/
def setAvailFirst (t notes : String) : List DietaryOption → List DietaryOption
  | [] => []
  | opt :: rest =>
    if opt.type == t then { opt with available := true, notes := some notes } :: rest
    else opt :: setAvailFirst t notes rest

/-- `generateDietaryOptions` from `restaurant-generator.ts`
(lines 406-445): the base list with cuisine-specific entries switched on
for the primary (first) cuisine; adjustments only ever set
`available := true`. -/
def generateDietaryOptions (cuisines : List String) : List DietaryOption :=
  let primaryCuisine := cuisines.head?
  let opts := baseDietaryOptions
  let opts :=
    if primaryCuisine == some "indian" || primaryCuisine == some "mediterranean" then
      setAvailFirst "vegan" "Several vegan dishes available"
        (setAvailFirst "vegetarian" "Extensive vegetarian menu" opts)
    else opts
  let opts :=
    if primaryCuisine == some "japanese" || primaryCuisine == some "thai" then
      setAvailFirst "dairy-free" "Many dishes naturally dairy-free"
        (setAvailFirst "gluten-free" "Rice-based dishes available" opts)
    else opts
  let opts :=
    if primaryCuisine == some "mexican" || primaryCuisine == some "mediterranean" then
      setAvailFirst "halal" "Halal meat options available" opts
    else opts
  opts

/-!
Concrete catalog entries used by scenario theorems, counterexamples and
witnesses.
-/

/-- The scenario restaurant of the spec: "Mario's Italian Bistro",
cuisine `["italian"]`, price level 1, vegetarian available. -/
def marioData : GeneratedRestaurantData :=
  ⟨⟨"Mario's Italian Bistro", "12 Oak Rd", 4, 1, ["italian"],
    [⟨"vegetarian", true, some "Fresh vegetarian pasta daily"⟩]⟩, none, none⟩

/-- A price-tier-1 restaurant with no keyword overlap with the query
"cheap": used to exercise the price-only-query behaviour. -/
def joeData : GeneratedRestaurantData :=
  ⟨⟨"Joes Grill", "9 Elm Rd", 4, 1, ["american"], []⟩, none, none⟩

/-- A restaurant carrying a `specialFeatures` list without any
parking-related feature. -/
def blueData : GeneratedRestaurantData :=
  ⟨⟨"Blue Tavern", "2 Elm Rd", 4, 2, ["american"], []⟩, none, some ["wine list"]⟩

/-- A restaurant whose `specialFeatures` list matches the "parking"
amenity. -/
def parkData : GeneratedRestaurantData :=
  ⟨⟨"Park Diner", "4 Elm Rd", 3, 2, ["american"], []⟩, none, some ["parking lot"]⟩

/-- A restaurant with no halal accommodation entry at all. -/
def noHalalData : GeneratedRestaurantData :=
  ⟨⟨"Golden Wok", "7 Elm Rd", 4, 2, ["chinese"],
    [⟨"vegetarian", true, some "Tofu dishes"⟩]⟩, none, none⟩

/-!
Claim theorems.
-/

/-- C3: for every restaurant, restriction list and allergy list, the
`score` of the `CompatibilityResult` returned by the analyzer is an
integer in [0, 100], on both the empty-input fast path (where it is the
starting 100) and the full analysis path (where the final clamp
`Math.max(0, Math.min(100, score))` confines it). -/
theorem analyzeDietary_score_in_range (restaurant : Restaurant)
    (userRestrictions userAllergies : List String) :
    0 ≤ (analyzeRestaurantCompatibility restaurant userRestrictions userAllergies).score ∧
    (analyzeRestaurantCompatibility restaurant userRestrictions userAllergies).score ≤ 100 := by
  unfold analyzeRestaurantCompatibility
  split
  · exact ⟨by norm_num, by norm_num⟩
  · unfold bonusAndClamp
    refine ⟨le_max_left 0 _, max_le (by norm_num) (min_le_left 100 _)⟩

/-- C7: the query "Find cheap vegetarian Italian restaurants" extracts
exactly `{cuisine: "italian", dietary: "vegetarian", priceLevel: 1}`
(amenity unset), and against a catalog containing Mario's Italian Bistro
(cuisine `["italian"]`, price level 1, vegetarian available) the matcher
returns that restaurant with the strictly positive score 13
(+8 cuisine keyword, +5 dietary bonus) — it is not excluded. -/
theorem scenario_mario_bistro :
    extractSearchFilters "Find cheap vegetarian Italian restaurants" =
      ⟨some "italian", some 1, some "vegetarian", none⟩
    ∧ searchRestaurants [marioData] "Find cheap vegetarian Italian restaurants"
        (extractSearchFilters "Find cheap vegetarian Italian restaurants") =
      [⟨marioData, 13⟩]
    ∧ 0 < (13 : Nat) := by
  refine ⟨by decide, ?_, by decide⟩
  unfold searchRestaurants
  have h : unsortedResults [marioData] "Find cheap vegetarian Italian restaurants"
      (extractSearchFilters "Find cheap vegetarian Italian restaurants") = [⟨marioData, 13⟩] := by
    decide
  rw [h, List.mergeSort_singleton]

/-- C8: for name "Dragon Palace" and address "456 Broadway" the inference
heuristics yield primary cuisine "chinese" — the first cuisine in table
order with a matching indicator ("dragon"), even though the indicator
"la" of the later "mexican" entry also occurs as a substring of the
lowercased name — and the urban location multiplier of exactly 1.3 with
style "urban" (the upscale override does not fire for this address). -/
theorem scenario_dragon_palace :
    (analyzeRestaurantName "Dragon Palace").cuisines = ["chinese"]
    ∧ analyzeLocation "456 Broadway" = ⟨mkRat 13 10, "urban"⟩
    ∧ (∃ e ∈ cuisineIndicators, e.1 = "mexican" ∧ "la" ∈ e.2
         ∧ jsIncludes (jsToLower "Dragon Palace") "la" = true) := by
  refine ⟨by decide, by decide, ?_⟩
  decide

/-!
Matcher lemmas: how a cache entry gets into the result list.
-/

/-- A keyword-matched entry scored at least 4 in the keyword phase. -/
theorem keywordPass_score_ge (queryLower : String) (data : GeneratedRestaurantData)
    (h : (keywordPass queryLower data).1 = true) : 4 ≤ (keywordPass queryLower data).2 := by
  unfold keywordPass at h ⊢
  dsimp only at h ⊢
  split_ifs at h ⊢ <;> dsimp only at h ⊢ <;> omega

/-- The cuisine filter only lowers the flag; when the result flag is up,
the input flag was up and a set cuisine filter is satisfied. -/
theorem cuisineFilter_flag (filters : SearchFilters) (restaurant : Restaurant)
    (st : Bool × Nat) (h : (cuisineFilter filters restaurant st).1 = true) :
    st.1 = true ∧
    ∀ c, filters.cuisine = some c → restaurant.cuisine.contains (jsToLower c) = true := by
  unfold cuisineFilter at h
  cases hc : filters.cuisine with
  | none => exact ⟨by rwa [hc] at h, by simp [hc]⟩
  | some c =>
    rw [hc] at h
    dsimp only at h
    by_cases hm : restaurant.cuisine.contains (jsToLower c) = true
    · rw [if_neg (by rw [hm]; decide)] at h
      refine ⟨h, ?_⟩
      intro c' hc'
      injection hc' with e
      rw [← e]
      exact hm
    · have hf : restaurant.cuisine.contains (jsToLower c) = false := by
        revert hm
        cases restaurant.cuisine.contains (jsToLower c) <;> simp
      rw [if_pos (by rw [hf]; decide)] at h
      exact Bool.noConfusion h

/-- The price filter only lowers the flag; when the result flag is up,
the input flag was up and a set price filter is satisfied. -/
theorem priceFilter_flag (filters : SearchFilters) (restaurant : Restaurant)
    (st : Bool × Nat) (h : (priceFilter filters restaurant st).1 = true) :
    st.1 = true ∧ ∀ p, filters.priceLevel = some p → restaurant.priceLevel = p := by
  unfold priceFilter at h
  cases hc : filters.priceLevel with
  | none => exact ⟨by rwa [hc] at h, by simp [hc]⟩
  | some p =>
    rw [hc] at h
    dsimp only at h
    by_cases hm : restaurant.priceLevel = p
    · rw [if_neg (by simp [hm])] at h
      refine ⟨h, ?_⟩
      intro p' hp'
      injection hp' with e
      rw [← e]
      exact hm
    · rw [if_pos (by simp [hm])] at h
      exact Bool.noConfusion h

/-- The dietary filter only raises the score; when the result flag is up,
the input flag was up and a set dietary filter found an available
matching accommodation. -/
theorem dietaryFilter_flag (filters : SearchFilters) (restaurant : Restaurant)
    (st : Bool × Nat) (h : (dietaryFilter filters restaurant st).1 = true) :
    st.1 = true ∧
    ∀ d, filters.dietary = some d →
      restaurant.dietaryOptions.any (fun opt => opt.type == d && opt.available) = true := by
  unfold dietaryFilter at h
  cases hc : filters.dietary with
  | none => exact ⟨by rwa [hc] at h, by simp [hc]⟩
  | some d =>
    rw [hc] at h
    dsimp only at h
    by_cases hm : restaurant.dietaryOptions.any (fun opt => opt.type == d && opt.available) = true
    · rw [if_pos hm] at h
      refine ⟨h, ?_⟩
      intro d' hd'
      injection hd' with e
      rw [← e]
      exact hm
    · rw [if_neg hm] at h
      exact Bool.noConfusion h

/-- The amenity filter: when the result flag is up, the input flag was up
and a set amenity filter is satisfied whenever a feature list is present.
-/
theorem amenityFilter_flag (filters : SearchFilters) (data : GeneratedRestaurantData)
    (st : Bool × Nat) (h : (amenityFilter filters data st).1 = true) :
    st.1 = true ∧
    ∀ a feats, filters.amenity = some a → data.specialFeatures = some feats →
      feats.any (fun feature =>
        jsIncludes (jsToLower feature) (jsReplaceUnderscore a)) = true := by
  unfold amenityFilter at h
  cases ha : filters.amenity with
  | none =>
    rw [ha] at h
    exact ⟨h, by simp [ha]⟩
  | some a =>
    cases hs : data.specialFeatures with
    | none =>
      rw [ha, hs] at h
      exact ⟨h, by simp [hs]⟩
    | some feats =>
      rw [ha, hs] at h
      dsimp only at h
      by_cases hm : feats.any (fun feature =>
          jsIncludes (jsToLower feature) (jsReplaceUnderscore a)) = true
      · rw [if_pos hm] at h
        refine ⟨h, ?_⟩
        intro a' feats' ha' hs'
        injection ha' with e1
        injection hs' with e2
        rw [← e1, ← e2]
        exact hm
      · rw [if_neg hm] at h
        exact Bool.noConfusion h

/-- Each filter step never lowers the accumulated score. -/
theorem cuisineFilter_score (filters : SearchFilters) (restaurant : Restaurant)
    (st : Bool × Nat) : st.2 ≤ (cuisineFilter filters restaurant st).2 := by
  unfold cuisineFilter
  cases filters.cuisine <;> dsimp <;> try split
  all_goals simp

/-- The price step never lowers the accumulated score. -/
theorem priceFilter_score (filters : SearchFilters) (restaurant : Restaurant)
    (st : Bool × Nat) : st.2 ≤ (priceFilter filters restaurant st).2 := by
  unfold priceFilter
  cases filters.priceLevel <;> dsimp <;> try split
  all_goals simp

/-- The dietary step never lowers the accumulated score. -/
theorem dietaryFilter_score (filters : SearchFilters) (restaurant : Restaurant)
    (st : Bool × Nat) : st.2 ≤ (dietaryFilter filters restaurant st).2 := by
  unfold dietaryFilter
  cases filters.dietary <;> dsimp <;> try split
  all_goals simp

/-- The amenity step never lowers the accumulated score. -/
theorem amenityFilter_score (filters : SearchFilters) (data : GeneratedRestaurantData)
    (st : Bool × Nat) : st.2 ≤ (amenityFilter filters data st).2 := by
  unfold amenityFilter
  cases filters.amenity <;> cases data.specialFeatures <;> dsimp <;> try split
  all_goals simp

/-- Full characterization of a successful `processOne`: the entry is the
restaurant itself, some keyword matched, the score is at least 4, and
every set hard filter is satisfied (with the amenity condition applying
whenever a feature list is present). -/
theorem processOne_eq_some (queryLower : String) (filters : SearchFilters)
    (data : GeneratedRestaurantData) (res : SearchResult)
    (h : processOne queryLower filters data = some res) :
    res.data = data
    ∧ keywordMatch queryLower data = true
    ∧ 4 ≤ res.searchScore
    ∧ (∀ c, filters.cuisine = some c →
        data.restaurant.cuisine.contains (jsToLower c) = true)
    ∧ (∀ p, filters.priceLevel = some p → data.restaurant.priceLevel = p)
    ∧ (∀ d, filters.dietary = some d →
        data.restaurant.dietaryOptions.any (fun opt => opt.type == d && opt.available) = true)
    ∧ (∀ a feats, filters.amenity = some a → data.specialFeatures = some feats →
        feats.any (fun feature =>
          jsIncludes (jsToLower feature) (jsReplaceUnderscore a)) = true) := by
  unfold processOne at h
  dsimp only at h
  by_cases hk : (keywordPass queryLower data).1 = true
  · rw [if_pos hk] at h
    set st := amenityFilter filters data
      (dietaryFilter filters data.restaurant
        (priceFilter filters data.restaurant
          (cuisineFilter filters data.restaurant (keywordPass queryLower data)))) with hst
    by_cases hf : st.1 = true
    · rw [if_pos hf] at h
      obtain ⟨h4, hAm⟩ := amenityFilter_flag filters data _ hf
      obtain ⟨h3, hDi⟩ := dietaryFilter_flag filters data.restaurant _ h4
      obtain ⟨h2, hPr⟩ := priceFilter_flag filters data.restaurant _ h3
      obtain ⟨h1, hCu⟩ := cuisineFilter_flag filters data.restaurant _ h2
      have hscore : 4 ≤ st.2 := by
        calc 4 ≤ (keywordPass queryLower data).2 := keywordPass_score_ge _ _ hk
          _ ≤ (cuisineFilter filters data.restaurant (keywordPass queryLower data)).2 :=
            cuisineFilter_score _ _ _
          _ ≤ (priceFilter filters data.restaurant _).2 := priceFilter_score _ _ _
          _ ≤ (dietaryFilter filters data.restaurant _).2 := dietaryFilter_score _ _ _
          _ ≤ st.2 := by rw [hst]; exact amenityFilter_score _ _ _
      cases h
      exact ⟨rfl, hk, hscore, hCu, hPr, hDi, hAm⟩
    · rw [if_neg hf] at h
      cases h
  · rw [if_neg hk] at h
    rw [if_neg hk] at h
    cases h

/-- Membership in the final ranked list is membership in the unsorted
per-entry results. -/
theorem mem_searchRestaurants (cache : List GeneratedRestaurantData) (query : String)
    (filters : SearchFilters) (res : SearchResult) :
    res ∈ searchRestaurants cache query filters ↔
      ∃ data ∈ cache, processOne (jsToLower query) filters data = some res := by
  unfold searchRestaurants unsortedResults
  rw [List.mem_mergeSort]
  exact List.mem_filterMap

/-- The filters extracted from the Mario scenario query. -/
def marioFilters : SearchFilters := ⟨some "italian", some 1, some "vegetarian", none⟩

/-- An all-unset filter record. -/
def noFilters : SearchFilters := ⟨none, none, none, none⟩

/-- A filter record with only the parking amenity set. -/
def parkingFilters : SearchFilters := ⟨none, none, none, some "parking"⟩

/-- C1: every entry of the ranked result satisfies all requested hard
filters — a set cuisine filter means the restaurant's cuisine tags contain
the (lowercased) tag, a set price filter means the price tier equals the
request, and a set dietary filter means some accommodation entry for the
tag has `available = true`.  A restaurant failing any of these never
reaches the result list. -/
theorem searchRestaurants_hard_filters (cache : List GeneratedRestaurantData)
    (query : String) (filters : SearchFilters) (res : SearchResult)
    (h : res ∈ searchRestaurants cache query filters) :
    (∀ c, filters.cuisine = some c →
      res.data.restaurant.cuisine.contains (jsToLower c) = true)
    ∧ (∀ p, filters.priceLevel = some p → res.data.restaurant.priceLevel = p)
    ∧ (∀ d, filters.dietary = some d →
        ∃ opt ∈ res.data.restaurant.dietaryOptions, opt.type = d ∧ opt.available = true) := by
  obtain ⟨data, hmem, hp⟩ := (mem_searchRestaurants cache query filters res).mp h
  obtain ⟨hdata, _, _, hCu, hPr, hDi, _⟩ := processOne_eq_some _ _ _ _ hp
  subst hdata
  refine ⟨hCu, hPr, ?_⟩
  intro d hd
  have hAny := hDi d hd
  rw [List.any_eq_true] at hAny
  obtain ⟨opt, hopt, hcond⟩ := hAny
  rw [Bool.and_eq_true] at hcond
  exact ⟨opt, hopt, beq_iff_eq.mp hcond.1, hcond.2⟩

/-- Witness for C1 at the Mario scenario: the dietary hard filter is
satisfied by the returned entry. -/
theorem searchRestaurants_hard_filters_witness :
    ∃ opt ∈ marioData.restaurant.dietaryOptions, opt.type = "vegetarian" ∧ opt.available = true :=
  (searchRestaurants_hard_filters [marioData] "Find cheap vegetarian Italian restaurants"
    marioFilters ⟨marioData, 13⟩
    (by unfold searchRestaurants; exact List.mem_mergeSort.mpr (by decide))).2.2 "vegetarian" rfl

/-- C4 counterexample: a price-only query ("cheap" → only
`priceLevel = 1` set) with a catalog whose restaurant has exactly the
requested price tier but no keyword match.  The claim says such a
restaurant is retained with score 0 because the price dimension was
requested and satisfied; the code instead applies filters only to
keyword-matched restaurants, so the result is empty. -/
theorem price_only_query_counterexample :
    extractSearchFilters "cheap" = ⟨none, some 1, none, none⟩
    ∧ joeData.restaurant.priceLevel = 1
    ∧ keywordMatch (jsToLower "cheap") joeData = false
    ∧ searchRestaurants [joeData] "cheap" (extractSearchFilters "cheap") = [] := by
  refine ⟨by decide, by decide, by decide, ?_⟩
  unfold searchRestaurants
  have h : unsortedResults [joeData] "cheap" (extractSearchFilters "cheap") = [] := by decide
  rw [h, List.mergeSort_nil]

/-- C4 (amended): a restaurant with no keyword match is never retained,
whatever filters are set; every returned match keyword-matched and its
score is at least 4, so a zero-keyword-score restaurant is excluded even
on a price-only query whose price filter it satisfies. -/
theorem searchRestaurants_needs_keyword_match (cache : List GeneratedRestaurantData)
    (query : String) (filters : SearchFilters) (res : SearchResult)
    (h : res ∈ searchRestaurants cache query filters) :
    keywordMatch (jsToLower query) res.data = true ∧ 4 ≤ res.searchScore := by
  obtain ⟨data, hmem, hp⟩ := (mem_searchRestaurants cache query filters res).mp h
  obtain ⟨hdata, hkm, hsc, _⟩ := processOne_eq_some _ _ _ _ hp
  subst hdata
  exact ⟨hkm, hsc⟩

/-- Witness for the amended C4 at the Mario scenario entry. -/
theorem searchRestaurants_needs_keyword_match_witness :
    keywordMatch (jsToLower "Find cheap vegetarian Italian restaurants")
      (SearchResult.mk marioData 13).data = true
    ∧ 4 ≤ (SearchResult.mk marioData 13).searchScore :=
  searchRestaurants_needs_keyword_match [marioData]
    "Find cheap vegetarian Italian restaurants" marioFilters ⟨marioData, 13⟩
    (by unfold searchRestaurants; exact List.mem_mergeSort.mpr (by decide))

/-- C5 counterexample: with no amenity filter, "Blue Tavern" (feature list
`["wine list"]`) is returned for the query "blue tavern park diner"; with
`amenity = "parking"` set it is excluded from the result — an amenity
mismatch does exclude a restaurant that would otherwise be included, so
the amenity filter is not merely a score bonus. -/
theorem amenity_mismatch_counterexample :
    (searchRestaurants [blueData, parkData] "blue tavern park diner" noFilters).map
        (fun r => (r.data.restaurant.name, r.searchScore)) =
      [("Blue Tavern", 10), ("Park Diner", 10)]
    ∧ (searchRestaurants [blueData, parkData] "blue tavern park diner" parkingFilters).map
        (fun r => (r.data.restaurant.name, r.searchScore)) =
      [("Park Diner", 13)] := by
  constructor
  · unfold searchRestaurants
    have h : unsortedResults [blueData, parkData] "blue tavern park diner" noFilters =
        [⟨blueData, 10⟩, ⟨parkData, 10⟩] := by decide
    rw [h, List.mergeSort_of_sorted (by decide)]
    decide
  · unfold searchRestaurants
    have h : unsortedResults [blueData, parkData] "blue tavern park diner" parkingFilters =
        [⟨parkData, 13⟩] := by decide
    rw [h, List.mergeSort_singleton]
    decide

/-- C5 (amended): the amenity filter is a hard filter for restaurants
exposing a `specialFeatures` list — when `filters.amenity` is set and no
feature contains the amenity string (first underscore replaced by a
space), the restaurant is excluded from the result; a matching feature
instead adds +3, and only records without a feature list are unaffected.
-/
theorem searchRestaurants_amenity_excludes (cache : List GeneratedRestaurantData)
    (query : String) (filters : SearchFilters) (a : String)
    (data : GeneratedRestaurantData) (feats : List String) (res : SearchResult)
    (hA : filters.amenity = some a)
    (hS : data.specialFeatures = some feats)
    (hMiss : feats.all (fun feature =>
        !(jsIncludes (jsToLower feature) (jsReplaceUnderscore a))) = true)
    (hres : res ∈ searchRestaurants cache query filters) :
    res.data ≠ data := by
  intro hEq
  obtain ⟨d, hmem, hp⟩ := (mem_searchRestaurants cache query filters res).mp hres
  obtain ⟨hdata, _, _, _, _, _, hAm⟩ := processOne_eq_some _ _ _ _ hp
  have hd : d = data := by rw [← hdata, hEq]
  subst hd
  have hAny := hAm a feats hA hS
  rw [List.any_eq_true] at hAny
  obtain ⟨f, hf, hfp⟩ := hAny
  have hcontra := List.all_eq_true.mp hMiss f hf
  rw [hfp] at hcontra
  exact Bool.noConfusion hcontra

/-- Witness for the amended C5: in the two-restaurant catalog the entry
that does reach the result is not the feature-mismatching "Blue Tavern".
-/
theorem searchRestaurants_amenity_excludes_witness :
    (SearchResult.mk parkData 13).data ≠ blueData :=
  searchRestaurants_amenity_excludes [blueData, parkData] "blue tavern park diner"
    parkingFilters "parking" blueData ["wine list"] ⟨parkData, 13⟩ rfl rfl (by decide)
    (by unfold searchRestaurants; exact List.mem_mergeSort.mpr (by decide))

/-!
Analyzer lemmas: the restriction loop splits the requested tags by
availability, later passes never touch the verdict or the tag lists.
-/

/-- The restriction step sets the verdict to the conjunction of the old
verdict with the availability-or-noncritical condition. -/
theorem restrictionStep_compatible (restaurant : Restaurant) (analysis : DietaryAnalysis)
    (restriction : String) :
    (restrictionStep restaurant analysis restriction).compatible =
      (analysis.compatible &&
        (jsAvail restaurant.dietaryOptions restriction || !isCriticalRestriction restriction)) := by
  unfold restrictionStep
  by_cases h : jsAvail restaurant.dietaryOptions restriction = true <;>
    by_cases hc : isCriticalRestriction restriction = true <;>
      simp [h, hc]

/-- The restriction step appends the tag to `compatibleOptions` exactly
when it is available. -/
theorem restrictionStep_compatOptions (restaurant : Restaurant) (analysis : DietaryAnalysis)
    (restriction : String) :
    (restrictionStep restaurant analysis restriction).compatibleOptions =
      analysis.compatibleOptions ++
        (if jsAvail restaurant.dietaryOptions restriction then [restriction] else []) := by
  unfold restrictionStep
  by_cases h : jsAvail restaurant.dietaryOptions restriction = true <;>
    by_cases hc : isCriticalRestriction restriction = true <;>
      simp [h, hc]

/-- The restriction step appends the tag to `incompatibleOptions` exactly
when it is unavailable. -/
theorem restrictionStep_incompatOptions (restaurant : Restaurant) (analysis : DietaryAnalysis)
    (restriction : String) :
    (restrictionStep restaurant analysis restriction).incompatibleOptions =
      analysis.incompatibleOptions ++
        (if jsAvail restaurant.dietaryOptions restriction then [] else [restriction]) := by
  unfold restrictionStep
  by_cases h : jsAvail restaurant.dietaryOptions restriction = true <;>
    by_cases hc : isCriticalRestriction restriction = true <;>
      simp [h, hc]

/-- The full restriction loop: verdict characterization. -/
theorem foldl_restrictionStep_compatible (restaurant : Restaurant) :
    ∀ (rs : List String) (analysis : DietaryAnalysis),
      (rs.foldl (restrictionStep restaurant) analysis).compatible =
        (analysis.compatible &&
          rs.all (fun r => jsAvail restaurant.dietaryOptions r || !isCriticalRestriction r))
  | [], analysis => by simp
  | r :: rs, analysis => by
    simp only [List.foldl_cons, List.all_cons]
    rw [foldl_restrictionStep_compatible restaurant rs, restrictionStep_compatible,
      Bool.and_assoc]

/-- The full restriction loop: `compatibleOptions` is the available
sublist of the request, in request order. -/
theorem foldl_restrictionStep_compatOptions (restaurant : Restaurant) :
    ∀ (rs : List String) (analysis : DietaryAnalysis),
      (rs.foldl (restrictionStep restaurant) analysis).compatibleOptions =
        analysis.compatibleOptions ++
          rs.filter (fun r => jsAvail restaurant.dietaryOptions r)
  | [], analysis => by simp
  | r :: rs, analysis => by
    simp only [List.foldl_cons, List.filter_cons]
    rw [foldl_restrictionStep_compatOptions restaurant rs, restrictionStep_compatOptions]
    by_cases h : jsAvail restaurant.dietaryOptions r = true <;> simp [h]

/-- The full restriction loop: `incompatibleOptions` is the unavailable
sublist of the request, in request order. -/
theorem foldl_restrictionStep_incompatOptions (restaurant : Restaurant) :
    ∀ (rs : List String) (analysis : DietaryAnalysis),
      (rs.foldl (restrictionStep restaurant) analysis).incompatibleOptions =
        analysis.incompatibleOptions ++
          rs.filter (fun r => !jsAvail restaurant.dietaryOptions r)
  | [], analysis => by simp
  | r :: rs, analysis => by
    simp only [List.foldl_cons, List.filter_cons]
    rw [foldl_restrictionStep_incompatOptions restaurant rs, restrictionStep_incompatOptions]
    by_cases h : jsAvail restaurant.dietaryOptions r = true <;> simp [h]

/-- A fold whose step keeps the verdict and both tag lists keeps them
globally. -/
theorem foldl_core_preserved {α : Type} (f : DietaryAnalysis → α → DietaryAnalysis)
    (hf : ∀ a x, (f a x).compatible = a.compatible
        ∧ (f a x).compatibleOptions = a.compatibleOptions
        ∧ (f a x).incompatibleOptions = a.incompatibleOptions) :
    ∀ (l : List α) (a : DietaryAnalysis),
      (l.foldl f a).compatible = a.compatible
      ∧ (l.foldl f a).compatibleOptions = a.compatibleOptions
      ∧ (l.foldl f a).incompatibleOptions = a.incompatibleOptions
  | [], a => ⟨rfl, rfl, rfl⟩
  | x :: l, a => by
    obtain ⟨h1, h2, h3⟩ := hf a x
    obtain ⟨g1, g2, g3⟩ := foldl_core_preserved f hf l (f a x)
    simp only [List.foldl_cons]
    exact ⟨g1.trans h1, g2.trans h2, g3.trans h3⟩

/-- The conflict-note pass keeps the verdict and both tag lists. -/
theorem checkConflicting_core (restrictions : List String) (analysis : DietaryAnalysis) :
    (checkConflictingRestrictions restrictions analysis).compatible = analysis.compatible
    ∧ (checkConflictingRestrictions restrictions analysis).compatibleOptions =
        analysis.compatibleOptions
    ∧ (checkConflictingRestrictions restrictions analysis).incompatibleOptions =
        analysis.incompatibleOptions := by
  apply foldl_core_preserved
  intro a pc
  unfold conflictStep
  split <;> try split
  all_goals exact ⟨rfl, rfl, rfl⟩

/-- The cuisine-suitability pass keeps the verdict and both tag lists. -/
theorem cuisineCompat_core (cuisines restrictions : List String) (analysis : DietaryAnalysis) :
    (analyzeCuisineCompatibility cuisines restrictions analysis).compatible =
        analysis.compatible
    ∧ (analyzeCuisineCompatibility cuisines restrictions analysis).compatibleOptions =
        analysis.compatibleOptions
    ∧ (analyzeCuisineCompatibility cuisines restrictions analysis).incompatibleOptions =
        analysis.incompatibleOptions := by
  apply foldl_core_preserved
  intro a cuisine
  unfold cuisineCompatStep
  split
  · apply foldl_core_preserved
    intro a' r
    unfold cuisineRestrictionStep
    split
    · split <;> try split
      all_goals first
        | exact ⟨rfl, rfl, rfl⟩
        | (split; all_goals exact ⟨rfl, rfl, rfl⟩)
    · exact ⟨rfl, rfl, rfl⟩
  · exact ⟨rfl, rfl, rfl⟩

/-- The allergy pass keeps the verdict and both tag lists. -/
theorem allergy_core (restaurant : Restaurant) (allergies : List String)
    (analysis : DietaryAnalysis) :
    (checkAllergyWarnings restaurant allergies analysis).compatible = analysis.compatible
    ∧ (checkAllergyWarnings restaurant allergies analysis).compatibleOptions =
        analysis.compatibleOptions
    ∧ (checkAllergyWarnings restaurant allergies analysis).incompatibleOptions =
        analysis.incompatibleOptions := by
  apply foldl_core_preserved
  intro a cuisine
  unfold allergyStep
  split
  · dsimp only
    split <;> exact ⟨rfl, rfl, rfl⟩
  · exact ⟨rfl, rfl, rfl⟩

/-- The bonus-and-clamp tail keeps the verdict and both tag lists. -/
theorem bonusAndClamp_core (restaurant : Restaurant) (analysis : DietaryAnalysis) :
    (bonusAndClamp restaurant analysis).compatible = analysis.compatible
    ∧ (bonusAndClamp restaurant analysis).compatibleOptions = analysis.compatibleOptions
    ∧ (bonusAndClamp restaurant analysis).incompatibleOptions =
        analysis.incompatibleOptions := by
  unfold bonusAndClamp
  split <;> exact ⟨rfl, rfl, rfl⟩

/-- Characterization of the analyzer on the full path: the verdict is the
conjunction over requested tags, and the two tag lists are the available /
unavailable sublists of the request in request order. -/
theorem analyze_core (restaurant : Restaurant) (rs al : List String)
    (h : (rs.length == 0 && al.length == 0) = false) :
    (analyzeRestaurantCompatibility restaurant rs al).compatible =
      rs.all (fun r => jsAvail restaurant.dietaryOptions r || !isCriticalRestriction r)
    ∧ (analyzeRestaurantCompatibility restaurant rs al).compatibleOptions =
        rs.filter (fun r => jsAvail restaurant.dietaryOptions r)
    ∧ (analyzeRestaurantCompatibility restaurant rs al).incompatibleOptions =
        rs.filter (fun r => !jsAvail restaurant.dietaryOptions r) := by
  unfold analyzeRestaurantCompatibility
  rw [if_neg (by simp [h])]
  obtain ⟨b1, b2, b3⟩ := bonusAndClamp_core restaurant
    (checkAllergyWarnings restaurant al
      (analyzeCuisineCompatibility restaurant.cuisine rs
        (checkConflictingRestrictions rs
          (rs.foldl (restrictionStep restaurant) ⟨true, 100, [], [], [], []⟩))))
  obtain ⟨a1, a2, a3⟩ := allergy_core restaurant al
    (analyzeCuisineCompatibility restaurant.cuisine rs
      (checkConflictingRestrictions rs
        (rs.foldl (restrictionStep restaurant) ⟨true, 100, [], [], [], []⟩)))
  obtain ⟨c1, c2, c3⟩ := cuisineCompat_core restaurant.cuisine rs
    (checkConflictingRestrictions rs
      (rs.foldl (restrictionStep restaurant) ⟨true, 100, [], [], [], []⟩))
  obtain ⟨d1, d2, d3⟩ := checkConflicting_core rs
    (rs.foldl (restrictionStep restaurant) ⟨true, 100, [], [], [], []⟩)
  refine ⟨?_, ?_, ?_⟩
  · rw [b1, a1, c1, d1, foldl_restrictionStep_compatible]
    simp
  · rw [b2, a2, c2, d2, foldl_restrictionStep_compatOptions]
    simp
  · rw [b3, a3, c3, d3, foldl_restrictionStep_incompatOptions]
    simp

/-- When no accommodation entry for the tag is available the JS truthy
check `find(...)?.available` fails. -/
theorem jsAvail_eq_false (options : List DietaryOption) (restriction : String)
    (h : ∀ opt ∈ options, opt.type = restriction → opt.available = false) :
    jsAvail options restriction = false := by
  unfold jsAvail
  cases hf : options.find? (fun opt => opt.type == restriction) with
  | none => rfl
  | some opt =>
    have hmem := List.mem_of_find?_eq_some hf
    have hpred := List.find?_some hf
    rw [beq_iff_eq] at hpred
    exact h opt hmem hpred

/-- C2: whenever a requested restriction from the critical set has no
available accommodation entry on the restaurant, the analyzer verdict is
`compatible = false` and the tag ends up in the incompatible list. -/
theorem analyzeDietary_critical_unavailable (restaurant : Restaurant)
    (rs al : List String) (r : String)
    (h1 : r ∈ rs) (h2 : isCriticalRestriction r = true)
    (h3 : ∀ opt ∈ restaurant.dietaryOptions, opt.type = r → opt.available = false) :
    (analyzeRestaurantCompatibility restaurant rs al).compatible = false
    ∧ r ∈ (analyzeRestaurantCompatibility restaurant rs al).incompatibleOptions := by
  have hav : jsAvail restaurant.dietaryOptions r = false := jsAvail_eq_false _ _ h3
  have hne : (rs.length == 0 && al.length == 0) = false := by
    cases rs with
    | nil => cases h1
    | cons x xs => simp
  obtain ⟨hc, _, hi⟩ := analyze_core restaurant rs al hne
  constructor
  · rw [hc]
    rw [Bool.eq_false_iff]
    intro hall
    have := List.all_eq_true.mp hall r h1
    rw [hav, h2] at this
    exact Bool.noConfusion this
  · rw [hi]
    rw [List.mem_filter]
    exact ⟨h1, by rw [hav]; rfl⟩

/-- Witness for C2: a restaurant with no halal entry, requested
restrictions `["halal"]`. -/
theorem analyzeDietary_critical_unavailable_witness :
    (analyzeRestaurantCompatibility noHalalData.restaurant ["halal"] []).compatible = false
    ∧ "halal" ∈ (analyzeRestaurantCompatibility noHalalData.restaurant
        ["halal"] []).incompatibleOptions :=
  analyzeDietary_critical_unavailable noHalalData.restaurant ["halal"] [] "halal"
    (by decide) (by decide) (by decide)

/-- Counting a tag in the two filtered halves of a list adds up to its
count in the list. -/
theorem count_filter_split (l : List String) (p : String → Bool) (t : String) :
    (l.filter p).count t + (l.filter (fun x => !p x)).count t = l.count t := by
  induction l with
  | nil => simp
  | cons x xs ih =>
    by_cases h : p x = true <;>
      simp only [List.filter_cons, h, Bool.not_true, Bool.not_false, if_pos, if_neg,
        Bool.false_eq_true, ite_true, ite_false, List.count_cons] <;>
      split <;> omega

/-- C9: on a non-empty request the `compatibleOptions` and
`incompatibleOptions` lists partition the requested restrictions — every
requested occurrence lands in exactly one list (counts add up), both
lists are sublists of the request (request order preserved), and no
unrequested tag appears in either. -/
theorem analyzeDietary_partition (restaurant : Restaurant) (rs al : List String)
    (h : rs ≠ []) :
    (∀ t, (analyzeRestaurantCompatibility restaurant rs al).compatibleOptions.count t
        + (analyzeRestaurantCompatibility restaurant rs al).incompatibleOptions.count t
        = rs.count t)
    ∧ List.Sublist (analyzeRestaurantCompatibility restaurant rs al).compatibleOptions rs
    ∧ List.Sublist (analyzeRestaurantCompatibility restaurant rs al).incompatibleOptions rs
    ∧ (∀ t, t ∉ rs →
        t ∉ (analyzeRestaurantCompatibility restaurant rs al).compatibleOptions
        ∧ t ∉ (analyzeRestaurantCompatibility restaurant rs al).incompatibleOptions) := by
  have hne : (rs.length == 0 && al.length == 0) = false := by
    cases rs with
    | nil => exact absurd rfl h
    | cons x xs => simp
  obtain ⟨_, hco, hio⟩ := analyze_core restaurant rs al hne
  rw [hco, hio]
  refine ⟨fun t => count_filter_split rs _ t, List.filter_sublist rs,
    List.filter_sublist rs, fun t ht => ?_⟩
  constructor <;> (intro hmem; exact ht (List.mem_of_mem_filter hmem))

/-- Witness for C9 on a concrete restaurant and request. -/
theorem analyzeDietary_partition_witness :
    (∀ t, (analyzeRestaurantCompatibility noHalalData.restaurant
          ["vegetarian", "halal"] []).compatibleOptions.count t
        + (analyzeRestaurantCompatibility noHalalData.restaurant
          ["vegetarian", "halal"] []).incompatibleOptions.count t
        = (["vegetarian", "halal"] : List String).count t)
    ∧ List.Sublist (analyzeRestaurantCompatibility noHalalData.restaurant
        ["vegetarian", "halal"] []).compatibleOptions ["vegetarian", "halal"]
    ∧ List.Sublist (analyzeRestaurantCompatibility noHalalData.restaurant
        ["vegetarian", "halal"] []).incompatibleOptions ["vegetarian", "halal"]
    ∧ (∀ t, t ∉ (["vegetarian", "halal"] : List String) →
        t ∉ (analyzeRestaurantCompatibility noHalalData.restaurant
          ["vegetarian", "halal"] []).compatibleOptions
        ∧ t ∉ (analyzeRestaurantCompatibility noHalalData.restaurant
          ["vegetarian", "halal"] []).incompatibleOptions) :=
  analyzeDietary_partition noHalalData.restaurant ["vegetarian", "halal"] []
    (by decide)

/-- The four tags switched on in every generated accommodation list. -/
def alwaysOnTags : List String :=
  ["vegetarian", "nut-free", "shellfish-free", "diabetic-friendly"]

/-- For every cuisine list the generated accommodation list marks the
four base tags available: both under the matcher's `some(...)` check and
under the analyzer's `find(...)?.available` check. -/
theorem generateDietaryOptions_always_on (cuisines : List String) :
    ∀ t ∈ alwaysOnTags,
      (generateDietaryOptions cuisines).any (fun opt => opt.type == t && opt.available) = true
      ∧ jsAvail (generateDietaryOptions cuisines) t = true := by
  unfold generateDietaryOptions
  dsimp only
  split <;> split <;> split <;> decide

/-- C10: every generated restaurant record marks vegetarian, nut-free,
shellfish-free and diabetic-friendly available (cuisine adjustments only
ever switch options on), so it passes a dietary hard filter on any of
those tags and the analyzer never puts them in `incompatibleOptions`. -/
theorem generated_options_never_incompatible (cuisines rs al : List String)
    (restaurant : Restaurant) (t : String)
    (hr : restaurant.dietaryOptions = generateDietaryOptions cuisines)
    (ht : t ∈ alwaysOnTags) :
    restaurant.dietaryOptions.any (fun opt => opt.type == t && opt.available) = true
    ∧ t ∉ (analyzeRestaurantCompatibility restaurant rs al).incompatibleOptions := by
  obtain ⟨hany, hav⟩ := generateDietaryOptions_always_on cuisines t ht
  refine ⟨by rw [hr]; exact hany, ?_⟩
  by_cases hb : (rs.length == 0 && al.length == 0) = true
  · unfold analyzeRestaurantCompatibility
    rw [if_pos hb]
    simp
  · obtain ⟨_, _, hio⟩ := analyze_core restaurant rs al (Bool.eq_false_iff.mpr hb)
    rw [hio]
    intro hmem
    have := (List.mem_filter.mp hmem).2
    rw [hr, hav] at this
    exact Bool.noConfusion this

/-- The sort comparator order is transitive. -/
theorem resultLE_trans (a b c : SearchResult) (hab : resultLE a b = true)
    (hbc : resultLE b c = true) : resultLE a c = true := by
  unfold resultLE at hab hbc ⊢
  by_cases h1 : a.searchScore = b.searchScore
  · by_cases h2 : b.searchScore = c.searchScore
    · rw [if_pos (by simp [h1])] at hab
      rw [if_pos (by simp [h2])] at hbc
      rw [if_pos (by simp [h1, h2])]
      rw [decide_eq_true_eq] at hab hbc ⊢
      exact le_trans hbc hab
    · rw [if_neg (by simp [h2])] at hbc
      rw [decide_eq_true_eq] at hbc
      rw [if_neg (by simp only [beq_iff_eq]; omega)]
      rw [decide_eq_true_eq]
      omega
  · by_cases h2 : b.searchScore = c.searchScore
    · rw [if_neg (by simp [h1])] at hab
      rw [decide_eq_true_eq] at hab
      rw [if_neg (by simp only [beq_iff_eq]; omega)]
      rw [decide_eq_true_eq]
      omega
    · rw [if_neg (by simp [h1])] at hab
      rw [if_neg (by simp [h2])] at hbc
      rw [decide_eq_true_eq] at hab hbc
      rw [if_neg (by simp only [beq_iff_eq]; omega)]
      rw [decide_eq_true_eq]
      omega

/-- The sort comparator order is total. -/
theorem resultLE_total (a b : SearchResult) : (resultLE a b || resultLE b a) = true := by
  unfold resultLE
  by_cases h : a.searchScore = b.searchScore
  · rw [if_pos (by simp [h]), if_pos (by simp [h])]
    rcases le_total a.data.restaurant.rating b.data.restaurant.rating with hle | hle <;>
      simp [hle]
  · rw [if_neg (by simp [h]), if_neg (by simp only [beq_iff_eq]; omega)]
    simp only [Bool.or_eq_true, decide_eq_true_eq]
    omega

/-- The comparator order implies the descending score / rating relation.
-/
theorem resultLE_imp (a b : SearchResult) (h : resultLE a b = true) :
    b.searchScore < a.searchScore ∨
      (a.searchScore = b.searchScore ∧
        b.data.restaurant.rating ≤ a.data.restaurant.rating) := by
  unfold resultLE at h
  by_cases h1 : a.searchScore = b.searchScore
  · rw [if_pos (by simp [h1]), decide_eq_true_eq] at h
    exact Or.inr ⟨h1, h⟩
  · rw [if_neg (by simp [h1]), decide_eq_true_eq] at h
    exact Or.inl h

/-- C6: the ranked list is sorted by score descending with ties broken by
rating descending, and entries equal in both score and rating keep their
relative order from the unsorted per-entry results, which are produced in
catalog insertion order — JS `Array.prototype.sort` is stable and
`List.mergeSort` models it. -/
theorem searchRestaurants_sorted (cache : List GeneratedRestaurantData) (query : String)
    (filters : SearchFilters) :
    (searchRestaurants cache query filters).Pairwise (fun a b =>
      b.searchScore < a.searchScore ∨
        (a.searchScore = b.searchScore ∧
          b.data.restaurant.rating ≤ a.data.restaurant.rating))
    ∧ ∀ s r, (searchRestaurants cache query filters).filter
          (fun x => x.searchScore == s && x.data.restaurant.rating == r)
        = (unsortedResults cache query filters).filter
          (fun x => x.searchScore == s && x.data.restaurant.rating == r) := by
  constructor
  · have hs := List.sorted_mergeSort (fun a b c => resultLE_trans a b c)
      (fun a b => resultLE_total a b) (unsortedResults cache query filters)
    exact hs.imp (fun {a b} h => resultLE_imp a b h)
  · intro s r
    have hpair : (List.filter
        (fun x => x.searchScore == s && x.data.restaurant.rating == r)
        (unsortedResults cache query filters)).Pairwise (fun a b => resultLE a b = true) := by
      apply List.pairwise_of_forall_mem_list
      intro x hx y hy
      have hx' := (List.mem_filter.mp hx).2
      have hy' := (List.mem_filter.mp hy).2
      rw [Bool.and_eq_true] at hx' hy'
      obtain ⟨hx1, hx2⟩ := hx'
      obtain ⟨hy1, hy2⟩ := hy'
      rw [beq_iff_eq] at hx1 hx2 hy1 hy2
      unfold resultLE
      rw [if_pos (by simp [hx1, hy1]), decide_eq_true_eq, hx2, hy2]
    have hsub := List.sublist_mergeSort
      (fun a b c => resultLE_trans a b c) (fun a b => resultLE_total a b) hpair
      (List.filter_sublist (unsortedResults cache query filters))
    have h2 := hsub.filter (fun x => x.searchScore == s && x.data.restaurant.rating == r)
    rw [List.filter_eq_self.mpr (fun x hx => (List.mem_filter.mp hx).2)] at h2
    have hperm := (List.mergeSort_perm (unsortedResults cache query filters) resultLE).filter
      (fun x => x.searchScore == s && x.data.restaurant.rating == r)
    exact (h2.eq_of_length hperm.length_eq.symm).symm

/-- Witness for C10 with the italian cuisine list and a vegetarian
request. -/
theorem generated_options_never_incompatible_witness :
    (generateDietaryOptions ["italian"]).any
        (fun opt => opt.type == "vegetarian" && opt.available) = true
    ∧ "vegetarian" ∉ (analyzeRestaurantCompatibility
        ⟨"Mario's Italian Bistro", "12 Oak Rd", 4, 1, ["italian"],
          generateDietaryOptions ["italian"]⟩ ["vegetarian"] []).incompatibleOptions :=
  generated_options_never_incompatible ["italian"] ["vegetarian"] []
    ⟨"Mario's Italian Bistro", "12 Oak Rd", 4, 1, ["italian"],
      generateDietaryOptions ["italian"]⟩ "vegetarian" rfl (by decide)

end Concierge
